import Mathlib

/-!
Verification of the request layer of the frappe-js-client SDK.

The development shallowly embeds the parts of the TypeScript source that the
checked properties are about:

* `src/utils/axios.ts` — `getRequestHeaders`, `getAxiosClient` and the generic
  request helper `handleRequest` with its error normalization;
* `src/frappe/index.ts` — the `FrappeApp` constructor and the components it
  hands the shared axios instance to;
* `src/file/index.ts` — the header assembly of `FrappeFileUpload.uploadFile`;
* `src/db/index.ts` — the query-parameter construction of
  `FrappeDB.getDocList`, the `getLastDoc` flow, and the per-endpoint catch
  handler of `FrappeDB.getDoc`;
* `src/auth/index.ts` — the catch handler of
  `FrappeAuth.loginWithUsernamePassword`.

JS objects with optional keys are embedded as structures of `Option` fields
(a key is present exactly when the field is `some`); header objects built by
object spread are embedded as association lists where a later entry overrides
an earlier one; the impure zero-argument token supplier is embedded as a
function of the moment it is invoked, so that a supplier whose value changes
between invocations is representable.
-/

namespace FrappeJS

/-- Structured error body `Partial<FrappeError>` carried by a failed transport
response (`src/frappe/types.ts`). Every field of the TS interface is optional
on the error path; body fields that the request layer never inspects by name
are collected in `extra`, so that the object spread `...response?.data` is
preserved. `server_messages` embeds the TS field named `_server_messages`. -/
structure ErrorBody where
  message : Option String := none
  exception : Option String := none
  exc_type : Option String := none
  exc : Option String := none
  server_messages : Option String := none
  extra : List (String × String) := []
deriving DecidableEq

/-- The transport response attached to an axios failure: HTTP status, status
text and the (possibly absent) parsed body. -/
structure AxiosResp where
  status : Nat
  statusText : String
  data : Option ErrorBody := none
deriving DecidableEq

/-- The Standard Error Record (interface `FrappeError` of
`src/frappe/types.ts`) as thrown by the catch branches of the SDK: the spread
of the body supplies `exc_type`, `exc` and `extra`; the named keys
`httpStatus`, `httpStatusText`, `message`, `exception` are always written by
the handler. `server_messages` embeds `_server_messages`, which handleRequest
always writes and the per-endpoint handlers only take from the spread. -/
structure FrappeError where
  httpStatus : Nat
  httpStatusText : String
  message : String
  exception : String
  exc_type : Option String := none
  exc : Option String := none
  server_messages : Option String := none
  extra : List (String × String) := []
deriving DecidableEq

/-- A failure caught by `handleRequest`: either a failure recognized by
`isAxiosError` (carrying an optional `response`), or any other thrown value. -/
inductive CaughtFailure (ε : Type) where
  | axiosError (response : Option AxiosResp)
  | otherError (original : ε)
deriving DecidableEq

/-- The outcome of the one transport call made inside `handleRequest`: the
awaited response body on success, or the caught failure. -/
inductive TransportResult (T ε : Type) where
  | success (body : T)
  | failure (err : CaughtFailure ε)
deriving DecidableEq

/-- How one call of `handleRequest` settles: `ok` is fulfilment with the
transformed value, `frappeError` is rejection with a freshly built Standard
Error Record, `reraised` is rejection with the original caught value. -/
inductive HandleOutcome (ε R : Type) where
  | ok (value : R)
  | frappeError (rec : FrappeError)
  | reraised (original : ε)
deriving DecidableEq

/-- The Standard Error Record built in the catch branch of `handleRequest`
(`src/utils/axios.ts` lines 215 to 223): spread of `response?.data`, then
`httpStatus := response?.status ?? 500`,
`httpStatusText := response?.statusText ?? "Internal Server Error"`,
`message := response?.data?.message ?? errorMessage`,
`exception := response?.data?.exception ?? response?.data?.exc_type ??
"UnknownException"`, `_server_messages := response?.data?._server_messages ??
""`. -/
def frappeErrorOf (response : Option AxiosResp) (errorMessage : String) : FrappeError :=
  let d : ErrorBody := (response.bind (·.data)).getD {}
  { httpStatus := (response.map (·.status)).getD 500
    httpStatusText := (response.map (·.statusText)).getD "Internal Server Error"
    message := d.message.getD errorMessage
    exception := (d.exception.or d.exc_type).getD "UnknownException"
    exc_type := d.exc_type
    exc := d.exc
    server_messages := some (d.server_messages.getD "")
    extra := d.extra }

/-- Shallow embedding of `handleRequest` (`src/utils/axios.ts` lines 203 to
227). In TS, `errorMessage` defaults to
"An error occurred while processing the request." and `transformResponse`
defaults to the identity; callers of the embedding pass both explicitly. -/
def handleRequest {T R ε : Type} (transformResponse : T → R) (errorMessage : String)
    (result : TransportResult T ε) : HandleOutcome ε R :=
  match result with
  | .success body => .ok (transformResponse body)
  | .failure (.axiosError response) => .frappeError (frappeErrorOf response errorMessage)
  | .failure (.otherError e) => .reraised e

/-- Lookup in an association list with JS object-spread semantics: a later
entry for the same key overrides an earlier one, so that the spread of two
objects is embedded as list append. -/
def hLookup : List (String × String) → String → Option String
  | [], _ => none
  | (k, v) :: rest, key =>
    match hLookup rest key with
    | some v2 => some v2
    | none => if k = key then some v else none

/-- The TS literal union type of `tokenType`. -/
inductive TokenType where
  | bearer
  | token
deriving DecidableEq

/-- The literal string of each token type. -/
def TokenType.str : TokenType → String
  | .bearer => "Bearer"
  | .token => "token"

/-- The impure zero-argument TS token supplier, embedded as a function of the
moment it is invoked. -/
abbrev TokenSupplier := Nat → String

/-- Shallow embedding of `getRequestHeaders` (`src/utils/axios.ts` lines 119
to 154) in a non-browser execution context: the branch guarded by
`typeof window` and `typeof document`, which only adds `X-Frappe-Site-Name`
and `X-Frappe-CSRF-Token`, is skipped, and `appURL` is only read inside that
branch. `now` is the moment the function runs; the token supplier, when the
`useToken && tokenType && token` guard passes, is invoked at this moment. -/
def getRequestHeaders (useToken : Bool) (tokenType : Option TokenType)
    (token : Option TokenSupplier) (now : Nat) ( _appURL : Option String)
    (customHeaders : Option (List (String × String))) : List (String × String) :=
  let headers : List (String × String) :=
    [("Accept", "application/json"),
     ("Content-Type", "application/json; charset=utf-8")]
  let headers :=
    match useToken, tokenType, token with
    | true, some tt, some tok => headers ++ [("Authorization", tt.str ++ " " ++ tok now)]
    | _, _, _ => headers
  headers ++ customHeaders.getD []

/-- The defaults of a created axios instance needed by the claims. -/
structure AxiosInstance where
  baseURL : String
  defaultHeaders : List (String × String)
  withCredentials : Bool
deriving DecidableEq

/-- Shallow embedding of `getAxiosClient` (`src/utils/axios.ts` lines 71 to
86), which runs once, at `constructTime`. Its header object is the spread of
`getRequestHeaders(...)` followed by the literal key
`Content-Type: application/json; charset=utf-8`, written after the spread. -/
def getAxiosClient (appURL : String) (useToken : Option Bool)
    (token : Option TokenSupplier) (tokenType : Option TokenType)
    (customHeaders : Option (List (String × String)))
    (constructTime : Nat) : AxiosInstance :=
  { baseURL := appURL
    defaultHeaders :=
      getRequestHeaders (useToken.getD false) tokenType token constructTime
          (some appURL) customHeaders
        ++ [("Content-Type", "application/json; charset=utf-8")]
    withCredentials := true }

/-- `TokenParams` of `src/frappe/types.ts`. -/
structure TokenParams where
  useToken : Option Bool := none
  token : Option TokenSupplier := none
  type : Option TokenType := none

/-- The fields of `FrappeApp` (`src/frappe/index.ts`). -/
structure FrappeApp where
  url : String
  name : String
  useToken : Bool
  token : Option TokenSupplier
  tokenType : TokenType
  customHeaders : Option (List (String × String))
  axios : AxiosInstance

/-- Shallow embedding of the `FrappeApp` constructor (`src/frappe/index.ts`
lines 108 to 116), run at `constructTime`: `getAxiosClient` is called once,
here, so the default headers of the shared instance are fixed at
construction. -/
def FrappeApp.create (url : String) (tokenParams : Option TokenParams)
    (name : Option String) (customHeaders : Option (List (String × String)))
    (constructTime : Nat) : FrappeApp :=
  let useToken := (tokenParams.bind (·.useToken)).getD false
  let token := tokenParams.bind (·.token)
  let tokenType := (tokenParams.bind (·.type)).getD .bearer
  { url := url
    name := name.getD "FrappeApp"
    useToken := useToken
    token := token
    tokenType := tokenType
    customHeaders := customHeaders
    axios := getAxiosClient url (some useToken) token (some tokenType) customHeaders constructTime }

/-- The headers carried by a request issued through the shared axios instance.
The methods of `FrappeDB`, `FrappeCall`, `FrappeAuth`, `FrappePerm` and
`FrappeClient` call `this.axios` without a per-request `headers` entry, so
axios applies the instance defaults. `requestTime` is the moment the request
is issued; the result does not depend on it. -/
def sharedInstanceRequestHeaders (app : FrappeApp) ( _requestTime : Nat) :
    List (String × String) :=
  app.axios.defaultHeaders

/-- The fields of `FrappeFileUpload` (`src/file/index.ts`). -/
structure FrappeFileUpload where
  appURL : String
  useToken : Bool
  token : Option TokenSupplier
  tokenType : Option TokenType
  customHeaders : Option (List (String × String))

/-- `FrappeApp.file()` (`src/frappe/index.ts` lines 162 to 164). -/
def FrappeApp.file (app : FrappeApp) : FrappeFileUpload :=
  { appURL := app.url
    useToken := app.useToken
    token := app.token
    tokenType := some app.tokenType
    customHeaders := app.customHeaders }

/-- The headers of one `uploadFile` request (`src/file/index.ts` lines 195 to
206): `getRequestHeaders` is re-invoked at `requestTime`, and the multipart
`Content-Type` key is written after the spread of its result. -/
def uploadFileHeaders (f : FrappeFileUpload) (requestTime : Nat) : List (String × String) :=
  getRequestHeaders f.useToken f.tokenType f.token requestTime (some f.appURL) f.customHeaders
    ++ [("Content-Type", "multipart/form-data")]

/-- A filter value: the members of the TS union `Value` that are
JSON-serializable scalars (`Date` is omitted; no claim uses it). -/
inductive JValue where
  | str (s : String)
  | num (n : Int)
  | bool (b : Bool)
  | null
deriving DecidableEq

/-- JSON string escaping as performed by `JSON.stringify` on the characters
that occur in the inputs of the claims: quote, backslash and the common
control characters. -/
def jsonEscapeChar (c : Char) : String :=
  if c = '"' then "\\\""
  else if c = '\\' then "\\\\"
  else if c = '\n' then "\\n"
  else if c = '\r' then "\\r"
  else if c = '\t' then "\\t"
  else String.singleton c

/-- `JSON.stringify` of a string. -/
def jsonOfString (s : String) : String :=
  "\"" ++ String.join (s.toList.map jsonEscapeChar) ++ "\""

/-- `JSON.stringify` of a scalar filter value. -/
def jsonOfJValue : JValue → String
  | .str s => jsonOfString s
  | .num n => toString n
  | .bool true => "true"
  | .bool false => "false"
  | .null => "null"

/-- One filter triple `[field, operator, value]` (`src/db/types.ts`). -/
structure Filter where
  field : String
  op : String
  value : JValue
deriving DecidableEq

/-- `JSON.stringify` of one filter triple. -/
def jsonOfFilter (f : Filter) : String :=
  "[" ++ jsonOfString f.field ++ "," ++ jsonOfString f.op ++ "," ++ jsonOfJValue f.value ++ "]"

/-- `JSON.stringify` of a filter array. -/
def jsonOfFilters (fs : List Filter) : String :=
  "[" ++ String.intercalate "," (fs.map jsonOfFilter) ++ "]"

/-- `JSON.stringify` of a field-name array. -/
def jsonOfStringList (fs : List String) : String :=
  "[" ++ String.intercalate "," (fs.map jsonOfString) ++ "]"

/-- The TS literal union of sort orders. -/
inductive SortOrder where
  | asc
  | desc
deriving DecidableEq

/-- The literal string of each sort order. -/
def SortOrder.str : SortOrder → String
  | .asc => "asc"
  | .desc => "desc"

/-- The `orderBy` object of the query argument interfaces. -/
structure OrderBy where
  field : String
  order : Option SortOrder := none
deriving DecidableEq

/-- `GetDocListArgs` (`src/db/types.ts`), restricted to the keys that
`getDocList` destructures (`parent` and `debug` are declared in TS but never
read by `FrappeDB.getDocList`). -/
structure GetDocListArgs where
  fields : Option (List String) := none
  filters : Option (List Filter) := none
  orFilters : Option (List Filter) := none
  orderBy : Option OrderBy := none
  limit : Option Nat := none
  limit_start : Option Nat := none
  groupBy : Option String := none
  asDict : Option Bool := none
deriving DecidableEq

/-- The query-parameter object built by `FrappeDB.getDocList`
(`src/db/index.ts` lines 172 to 191). A field of value `none` stands for a key
set to `undefined` or, when `args` is absent, for the empty parameter
object. -/
structure DocListParams where
  fields : Option String := none
  filters : Option String := none
  or_filters : Option String := none
  order_by : Option String := none
  group_by : Option String := none
  limit : Option Nat := none
  limit_start : Option Nat := none
  as_dict : Option Bool := none
deriving DecidableEq

/-- The string `orderBy ? field + " " + (order ?? "asc") : ""` of
`src/db/index.ts` line 177. -/
def orderByString (orderBy : Option OrderBy) : String :=
  match orderBy with
  | some ob => ob.field ++ " " ++ (ob.order.map SortOrder.str).getD "asc"
  | none => ""

/-- The parameter construction of `FrappeDB.getDocList` (`src/db/index.ts`
lines 172 to 188): `filters`, `orFilters` and `fields` JSON-encoded when
present, `order_by` always written when `args` is present, `asDict` defaulted
to `true` by the destructuring. -/
def getDocListParams (args : Option GetDocListArgs) : DocListParams :=
  match args with
  | none => {}
  | some a =>
    { fields := a.fields.map jsonOfStringList
      filters := a.filters.map jsonOfFilters
      or_filters := a.orFilters.map jsonOfFilters
      order_by := some (orderByString a.orderBy)
      group_by := a.groupBy
      limit := a.limit
      limit_start := a.limit_start
      as_dict := some (a.asDict.getD true) }

/-- One row of the name-only list query issued by `getLastDoc`. -/
structure NameRow where
  name : String
deriving DecidableEq

/-- What `getLastDoc` does once its list query has returned
(`src/db/index.ts` lines 418 to 422): a second request for the full document
when the list is nonempty, otherwise fulfilment with the empty object
(`return \x7b\x7d as FrappeDoc<T>` issues no further request and does not
reject). -/
inductive LastDocAction where
  | fetchDoc (docname : String)
  | returnEmptyObject
deriving DecidableEq

/-- `GetLastDocArgs` (`src/db/types.ts`). -/
structure GetLastDocArgs where
  filters : Option (List Filter) := none
  orFilters : Option (List Filter) := none
  orderBy : Option OrderBy := none
deriving DecidableEq

/-- The list-query arguments that `getLastDoc` sends (`src/db/index.ts` lines
400 to 417): a default ordering by `creation desc`, the caller arguments
spread over it (a key present in `args` overrides the default), then
`limit := 1` and `fields := ["name"]` forced. -/
def getLastDocQueryArgs (args : Option GetLastDocArgs) : GetDocListArgs :=
  let defaultOrder : Option OrderBy := some { field := "creation", order := some .desc }
  let merged : GetLastDocArgs :=
    match args with
    | none => { orderBy := defaultOrder }
    | some a =>
      { filters := a.filters
        orFilters := a.orFilters
        orderBy := a.orderBy.or defaultOrder }
  { filters := merged.filters
    orFilters := merged.orFilters
    orderBy := merged.orderBy
    limit := some 1
    fields := some ["name"] }

/-- The branch of `getLastDoc` on the rows its list query returned:
`if (getDocLists.length > 0)` fetch the document named by the first row, else
return the empty object. -/
def getLastDocAfterList (rows : List NameRow) : LastDocAction :=
  match rows with
  | [] => .returnEmptyObject
  | r :: _ => .fetchDoc r.name

/-- The whole `getLastDoc` flow (`src/db/index.ts` lines 399 to 423) as a
function of the caller arguments and of the rows the list query returns: the
arguments of the one list query it issues, and what it does afterwards. -/
def getLastDoc (args : Option GetLastDocArgs) (rows : List NameRow) :
    GetDocListArgs × LastDocAction :=
  (getLastDocQueryArgs args, getLastDocAfterList rows)

/-- The failure caught by a per-endpoint `.catch` handler: the transport
response, absent on a pure network failure. -/
structure CaughtTransportError where
  response : Option AxiosResp
deriving DecidableEq

/-- A JS TypeError raised by reading a property of `undefined`, carrying the
name of the property read. -/
structure JsTypeError where
  prop : String
deriving DecidableEq

/-- Evaluation of a JS property read `base.prop` whose receiver may be
`undefined`: when `base` is `undefined` the read raises a TypeError naming
`prop`; otherwise it yields the receiver for the (then safe) reads of its
fields. -/
def jsRead {α : Type} (base : Option α) (prop : String) : Except JsTypeError α :=
  match base with
  | none => .error { prop := prop }
  | some b => .ok b

/-- The `.catch` handler of `FrappeDB.getDoc` (`src/db/index.ts` lines 135 to
143). The handler evaluates `error.response.data`, `error.response.status`,
`error.response.statusText` and `error.response.data.exception` without
optional chaining, so the first read on an absent `error.response` raises a
TypeError. `Except.ok rec` means the method rejects with the Standard Error
Record `rec`; `Except.error` means it rejects with the TypeError raised inside
the handler. The handler never re-raises the original failure. When a response
exists, axios always defines `response.data`; an empty body is the default
`ErrorBody`. -/
def getDocCatchHandler (error : CaughtTransportError) : Except JsTypeError FrappeError := do
  let r ← jsRead error.response "data"
  let d := r.data.getD {}
  pure
    { httpStatus := r.status
      httpStatusText := r.statusText
      message := "There was an error while fetching the document."
      exception := (d.exception.or d.exc_type).getD ""
      exc_type := d.exc_type
      exc := d.exc
      server_messages := d.server_messages
      extra := d.extra }

/-- The `.catch` handler of `FrappeAuth.loginWithUsernamePassword`
(`src/auth/index.ts` lines 139 to 147), with the same reading discipline as
`getDocCatchHandler`: the first property read on an absent `error.response`
raises a TypeError, and the original failure is never re-raised. -/
def loginCatchHandler (error : CaughtTransportError) : Except JsTypeError FrappeError := do
  let r ← jsRead error.response "data"
  let d := r.data.getD {}
  pure
    { httpStatus := r.status
      httpStatusText := r.statusText
      message := d.message.getD "There was an error while logging in"
      exception := d.exception.getD ""
      exc_type := d.exc_type
      exc := d.exc
      server_messages := d.server_messages
      extra := d.extra }

end FrappeJS

namespace FrappeJS

/-- Append law for spread lookup: looking a key up in the spread of two
objects consults the right object first. -/
theorem hLookup_append (a b : List (String × String)) (key : String) :
    hLookup (a ++ b) key
      = match hLookup b key with
        | some v => some v
        | none => hLookup a key := by
  induction a with
  | nil =>
    simp only [List.nil_append]
    cases hLookup b key <;> rfl
  | cons kv rest ih =>
    obtain ⟨k, v⟩ := kv
    simp only [List.cons_append, hLookup, List.append_eq, ih]
    cases hLookup b key <;> cases hLookup rest key <;> rfl

end FrappeJS

namespace FrappeJS

/-- C3: for every successful transport response with body `b`, `handleRequest`
returns exactly the caller-supplied transform applied to `b`, never the raw
body itself. -/
theorem c3_success_returns_transform {T R ε : Type} (transformResponse : T → R)
    (errorMessage : String) (b : T) :
    handleRequest transformResponse errorMessage
        (TransportResult.success b : TransportResult T ε)
      = HandleOutcome.ok (transformResponse b) := rfl

/-- C4: a transport failure carrying a structured response body is rejected
with a Standard Error Record whose `httpStatus` is the transport status code
and whose `message` is the message field of the body when present, else the
caller-supplied fallback `errorMessage`. -/
theorem c4_structured_failure_status_and_message {T R ε : Type}
    (transformResponse : T → R) (errorMessage : String)
    (status : Nat) (statusText : String) (d : ErrorBody) :
    (let resp : AxiosResp := { status := status, statusText := statusText, data := some d }
     handleRequest transformResponse errorMessage
        (TransportResult.failure (.axiosError (some resp)) : TransportResult T ε)
      = HandleOutcome.frappeError (frappeErrorOf (some resp) errorMessage)
     ∧ (frappeErrorOf (some resp) errorMessage).httpStatus = status
     ∧ (frappeErrorOf (some resp) errorMessage).message = d.message.getD errorMessage) :=
  ⟨rfl, rfl, rfl⟩

/-- C5: a transport failure whose structured body carries neither an
`exception` nor an `exc_type` field is rejected with a Standard Error Record
whose `exception` is the sentinel string "UnknownException". -/
theorem c5_unknown_exception_sentinel {T R ε : Type}
    (transformResponse : T → R) (errorMessage : String)
    (status : Nat) (statusText : String) (m exc sm : Option String)
    (extra : List (String × String)) :
    (let resp : AxiosResp :=
      { status := status, statusText := statusText,
        data := some { message := m, exception := none, exc_type := none, exc := exc,
                       server_messages := sm, extra := extra } }
     handleRequest transformResponse errorMessage
        (TransportResult.failure (.axiosError (some resp)) : TransportResult T ε)
      = HandleOutcome.frappeError (frappeErrorOf (some resp) errorMessage)
     ∧ (frappeErrorOf (some resp) errorMessage).exception = "UnknownException") :=
  ⟨rfl, rfl⟩

/-- C1 counterexample: at the concrete input of an axios failure that carries
no response at all (a pure network failure) and fallback message "m", the
original failure is not re-raised: `handleRequest` rejects with a freshly
built Standard Error Record whose `httpStatus` is the fabricated 500. -/
theorem c1_counterexample :
    handleRequest (fun n : Nat => n) "m"
        (TransportResult.failure (.axiosError none) : TransportResult Nat Unit)
      = HandleOutcome.frappeError (frappeErrorOf none "m")
    ∧ (frappeErrorOf none "m").httpStatus = 500 :=
  ⟨rfl, rfl⟩

/-- C1 (amended): only a caught failure that `isAxiosError` does not recognize
is re-raised unchanged; an axios failure with no response is rejected with a
Standard Error Record carrying the fabricated `httpStatus` 500 and
`httpStatusText` "Internal Server Error", the caller-supplied fallback message
and the unknown-exception sentinel. -/
theorem c1_amended_reraise_only_non_axios {T R ε : Type}
    (transformResponse : T → R) (errorMessage : String) (e : ε) :
    handleRequest transformResponse errorMessage
        (TransportResult.failure (.otherError e) : TransportResult T ε)
      = HandleOutcome.reraised e
    ∧ handleRequest transformResponse errorMessage
        (TransportResult.failure (.axiosError none) : TransportResult T ε)
      = HandleOutcome.frappeError (frappeErrorOf none errorMessage)
    ∧ (frappeErrorOf none errorMessage).httpStatus = 500
    ∧ (frappeErrorOf none errorMessage).httpStatusText = "Internal Server Error"
    ∧ (frappeErrorOf none errorMessage).message = errorMessage
    ∧ (frappeErrorOf none errorMessage).exception = "UnknownException" :=
  ⟨rfl, rfl, rfl, rfl, rfl, rfl⟩

/-- C9: whenever the list query of `getLastDoc` returns the empty list, the
call resolves with the empty object and issues no second request, for every
caller argument. -/
theorem c9_getLastDoc_empty_list (args : Option GetLastDocArgs) :
    (getLastDoc args []).snd = LastDocAction.returnEmptyObject := rfl

/-- C10: given a caught failure with no response object, the per-endpoint
catch handlers of `FrappeDB.getDoc` and of
`FrappeAuth.loginWithUsernamePassword` dereference `error.response.data` on an
undefined `error.response`, so both reject with the resulting TypeError, not
with the original failure and not with a Standard Error Record. -/
theorem c10_catch_handlers_raise_typeerror_without_response :
    getDocCatchHandler { response := none } = Except.error { prop := "data" }
    ∧ loginCatchHandler { response := none } = Except.error { prop := "data" } :=
  ⟨rfl, rfl⟩

end FrappeJS

namespace FrappeJS

/-- C2 counterexample: a client constructed at time 0 with a token supplier
returning "old" at time 0 and "new" at every later time; a request issued
through the shared axios instance (the path of every db, call, auth and
permission method) at time 1 still carries `Authorization: Bearer old`, not
the refreshed token the supplier would return at request time. -/
theorem c2_counterexample :
    hLookup
        (sharedInstanceRequestHeaders
          (FrappeApp.create "https://example.com"
            (some { useToken := some true,
                    token := some (fun now => if now = 0 then "old" else "new"),
                    type := some .bearer })
            none none 0) 1)
        "Authorization"
      = some "Bearer old"
    ∧ (fun now : Nat => if now = 0 then "old" else "new") 1 = "new"
    ∧ ("Bearer old" : String) ≠ "Bearer new" := by
  refine ⟨rfl, rfl, by decide⟩

/-- C2 (amended): the token supplier is invoked once, at construction time,
and the resulting `Authorization` header is baked into the default headers of
the shared axios instance, so every request issued through that instance
(db, call, auth, permission, client methods) carries the construction-time
token whatever the request time; only `uploadFile` re-invokes
`getRequestHeaders`, and with it the supplier, at request time. -/
theorem c2_amended_token_frozen_at_construction (url : String) (sup : TokenSupplier)
    (tt : TokenType) (nm : Option String) (constructTime requestTime : Nat) :
    (let app := FrappeApp.create url
        (some { useToken := some true, token := some sup, type := some tt })
        nm none constructTime
     hLookup (sharedInstanceRequestHeaders app requestTime) "Authorization"
        = some (tt.str ++ " " ++ sup constructTime)
     ∧ hLookup (uploadFileHeaders app.file requestTime) "Authorization"
        = some (tt.str ++ " " ++ sup requestTime)) :=
  ⟨rfl, rfl⟩

/-- C6 counterexample: at the concrete input
customHeaders = [("Content-Type", "text/plain")], the created client carries
Content-Type "application/json; charset=utf-8" and not the caller value,
because `getAxiosClient` writes the JSON Content-Type after the merge. -/
theorem c6_counterexample :
    hLookup
        (getAxiosClient "https://example.com" none none none
            (some [("Content-Type", "text/plain")]) 0).defaultHeaders
        "Content-Type"
      = some "application/json; charset=utf-8"
    ∧ hLookup [("Content-Type", "text/plain")] "Content-Type" = some "text/plain"
    ∧ (some "application/json; charset=utf-8" : Option String) ≠ some "text/plain" := by
  refine ⟨rfl, rfl, by decide⟩

/-- C6 (amended): inside `getRequestHeaders` the caller-supplied custom
headers are merged last and win for every header name they carry; but
`getAxiosClient` re-writes `Content-Type` after spreading that merge, so on
the created client the caller value wins for every header name except
`Content-Type`, whose final value is always the JSON default. -/
theorem c6_amended_custom_wins_except_content_type
    (appURL : String) (useToken : Option Bool) (token : Option TokenSupplier)
    (tokenType : Option TokenType) (custom : List (String × String))
    (constructTime : Nat) (nm v : String)
    (h : hLookup custom nm = some v) :
    hLookup (getRequestHeaders (useToken.getD false) tokenType token constructTime
        (some appURL) (some custom)) nm = some v
    ∧ (nm ≠ "Content-Type" →
        hLookup (getAxiosClient appURL useToken token tokenType (some custom)
            constructTime).defaultHeaders nm = some v)
    ∧ hLookup (getAxiosClient appURL useToken token tokenType (some custom)
          constructTime).defaultHeaders "Content-Type"
        = some "application/json; charset=utf-8" := by
  have h1 : hLookup (getRequestHeaders (useToken.getD false) tokenType token constructTime
      (some appURL) (some custom)) nm = some v := by
    simp only [getRequestHeaders, Option.getD_some, hLookup_append, h]
  refine ⟨h1, ?_, ?_⟩
  · intro hne
    simp only [getAxiosClient, hLookup_append, h1]
    simp only [hLookup]
    rw [if_neg (fun hk => hne hk.symm)]
  · simp only [getAxiosClient, hLookup_append]
    rfl

/-- C7 counterexample: with `useToken = false` and caller-supplied custom
headers that contain an `Authorization` entry of their own, the assembled
header set does contain an `Authorization` header. -/
theorem c7_counterexample :
    hLookup (getRequestHeaders false none none 0 none
        (some [("Authorization", "custom-value")])) "Authorization"
      = some "custom-value" := rfl

/-- C7 (amended): provided the caller-supplied custom headers carry no
`Authorization` entry of their own, header assembly with `useToken = true`, a
token type `tt` and a token supplier yields the `Authorization` header
`tt.str ++ " " ++ <supplier value>`, and with `useToken = false` no
`Authorization` header is present, whatever the token type and supplier. -/
theorem c7_amended_authorization_assembly
    (tokenTypeOff : Option TokenType) (tokenOff : Option TokenSupplier)
    (tt : TokenType) (sup : TokenSupplier) (now : Nat) (appURL : Option String)
    (custom : List (String × String))
    (h : hLookup custom "Authorization" = none) :
    hLookup (getRequestHeaders false tokenTypeOff tokenOff now appURL (some custom))
        "Authorization" = none
    ∧ hLookup (getRequestHeaders true (some tt) (some sup) now appURL (some custom))
        "Authorization" = some (tt.str ++ " " ++ sup now) := by
  constructor
  · simp only [getRequestHeaders, Option.getD_some, hLookup_append, h]
    rfl
  · simp only [getRequestHeaders, Option.getD_some, hLookup_append, h]
    rfl

/-- C7 witness: the amended statement at custom headers with no Authorization
entry, token type Bearer and a supplier returning "abc". -/
theorem c7_amended_authorization_assembly_witness :
    hLookup (getRequestHeaders false none none 0 none (some [("X-Custom", "1")]))
        "Authorization" = none
    ∧ hLookup (getRequestHeaders true (some .bearer) (some (fun _ => "abc")) 0 none
        (some [("X-Custom", "1")])) "Authorization"
      = some (TokenType.bearer.str ++ " " ++ (fun _ => "abc") 0) :=
  c7_amended_authorization_assembly none none .bearer (fun _ => "abc") 0 none
    [("X-Custom", "1")] rfl

/-- C6 witness: the amended statement at custom headers overriding Accept. -/
theorem c6_amended_custom_wins_except_content_type_witness :
    hLookup (getRequestHeaders ((some false).getD false) none none 7
        (some "https://example.com") (some [("Accept", "text/csv")])) "Accept"
      = some "text/csv"
    ∧ ("Accept" ≠ "Content-Type" →
        hLookup (getAxiosClient "https://example.com" (some false) none none
            (some [("Accept", "text/csv")]) 7).defaultHeaders "Accept" = some "text/csv")
    ∧ hLookup (getAxiosClient "https://example.com" (some false) none none
          (some [("Accept", "text/csv")]) 7).defaultHeaders "Content-Type"
        = some "application/json; charset=utf-8" :=
  c6_amended_custom_wins_except_content_type "https://example.com" (some false) none none
    [("Accept", "text/csv")] 7 "Accept" "text/csv" rfl

/-- C8: the list-documents query parameters built for
filters [["status","=","Open"]], orderBy creation descending and limit 10
contain the JSON-encoded filters value, order_by "creation desc" and
limit 10. -/
theorem c8_getDocList_query_params :
    (let args : GetDocListArgs :=
      { filters := some [{ field := "status", op := "=", value := .str "Open" }],
        orderBy := some { field := "creation", order := some .desc },
        limit := some 10 }
     (getDocListParams (some args)).filters = some "[[\"status\",\"=\",\"Open\"]]"
     ∧ (getDocListParams (some args)).order_by = some "creation desc"
     ∧ (getDocListParams (some args)).limit = some 10) := by
  refine ⟨?_, ?_, ?_⟩ <;> rfl

end FrappeJS
